import Mathlib

/-!
Verification of the two record-transformation stages of the
openstreetmap import core against its specification.

The embedding mirrors `src/stream/address_extractor.js` (the address
extractor and its `hasValidAddress` predicate) and — because the file
`document_constructor.js` itself is not part of the sources, only its test
suite is — a spec-modelled `DocumentConstructor`.

JavaScript dynamic values are embedded as the inductive type `JsVal`;
property access that can raise a `TypeError` (access on `null`/`undefined`)
is embedded in the `Except` monad, so that "the function never throws"
is a provable statement.
-/

/-- A JavaScript runtime value, as far as the extractor inspects one:
`undefined`, `null`, booleans, numbers, strings, arrays and plain objects
(association lists of named fields). -/
inductive JsVal where
  | undefined : JsVal
  | null : JsVal
  | bool (b : Bool) : JsVal
  | num (n : Int) : JsVal
  | str (s : String) : JsVal
  | arr (elems : List JsVal) : JsVal
  | obj (fields : List (String × JsVal)) : JsVal

/-- The `is-object` npm predicate used by the extractor:
`typeof x === 'object' && x !== null`; arrays and plain objects qualify. -/
def isObject : JsVal → Bool
  | .arr _ => true
  | .obj _ => true
  | _ => false

/-- First binding of a key in a JS object's field list. -/
def lookupField : List (String × JsVal) → String → JsVal
  | [], _ => .undefined
  | (k, v) :: rest, key => if k = key then v else lookupField rest key

/-- JS property read `v.k` as an exception-throwing operation: reading a
property of `null` or `undefined` raises a `TypeError`; reading an absent
property of anything else yields `undefined`. -/
def jsMember : JsVal → String → Except String JsVal
  | .undefined, _ => .error "TypeError: cannot read property of undefined"
  | .null, _ => .error "TypeError: cannot read property of null"
  | .obj fields, key => .ok (lookupField fields key)
  | _, _ => .ok .undefined

/-- Exception-free property read (used on the specification side, where the
spec speaks of a field "existing"): absent or unreadable means `undefined`. -/
def getProp : JsVal → String → JsVal
  | .obj fields, key => lookupField fields key
  | _, _ => .undefined

/-- JS `typeof`. -/
def typeofJs : JsVal → String
  | .undefined => "undefined"
  | .null => "object"
  | .bool _ => "boolean"
  | .num _ => "number"
  | .str _ => "string"
  | .arr _ => "object"
  | .obj _ => "object"

/-- JS `.length` read, as used by `hasValidAddress` after the `typeof`
guards: only ever reached on strings there; on `null`/`undefined` it would
throw, on other values the property is absent and falsy (embedded as 0). -/
def jsLength : JsVal → Except String Nat
  | .str s => .ok s.length
  | .arr elems => .ok elems.length
  | .undefined => .error "TypeError: cannot read property of undefined"
  | .null => .error "TypeError: cannot read property of null"
  | _ => .ok 0

/-- `hasValidAddress` from `src/stream/address_extractor.js`, guard for
guard: not an object / address not an object / `typeof` of number and
street / emptiness of number and street. -/
def hasValidAddress (doc : JsVal) : Except String Bool :=
  if !(isObject doc) then .ok false else
  match jsMember doc "address" with
  | .error e => .error e
  | .ok address =>
    if !(isObject address) then .ok false else
    match jsMember address "number" with
    | .error e => .error e
    | .ok number =>
      if !(typeofJs number == "string") then .ok false else
      match jsMember address "street" with
      | .error e => .error e
      | .ok street =>
        if !(typeofJs street == "string") then .ok false else
        match jsLength number with
        | .error e => .error e
        | .ok numberLen =>
          if numberLen == 0 then .ok false else
          match jsLength street with
          | .error e => .error e
          | .ok streetLen =>
            if streetLen == 0 then .ok false else .ok true

/-- Specification-side: a property "exists" when reading it does not give
`undefined`. -/
def existsProp (v : JsVal) : Bool :=
  match v with
  | .undefined => false
  | _ => true

/-- Specification-side: "is a non-empty string". -/
def isNonEmptyStr : JsVal → Bool
  | .str s => !(s.length == 0)
  | _ => false

/-- The spec's own wording of address validity (spec §4.2): `doc.address`
exists AND `doc.address.number` is a non-empty string AND
`doc.address.street` is a non-empty string. Stated from the spec's words,
to be compared with the implementation `hasValidAddress`. -/
def specValidAddress (doc : JsVal) : Bool :=
  existsProp (getProp doc "address")
  && isNonEmptyStr (getProp (getProp doc "address") "number")
  && isNonEmptyStr (getProp (getProp doc "address") "street")

theorem hasValidAddress_ok (doc : JsVal) :
    hasValidAddress doc = .ok (specValidAddress doc) := by
  cases doc <;>
    simp [hasValidAddress, specValidAddress, isObject, jsMember, getProp,
      existsProp, isNonEmptyStr, typeofJs, jsLength]
  case obj fields =>
    cases h : lookupField fields "address" <;>
      simp [isObject, existsProp, jsMember, getProp, isNonEmptyStr,
        typeofJs, jsLength, lookupField]
    case obj afields =>
      cases hn : lookupField afields "number" <;>
        simp [typeofJs, jsMember, isNonEmptyStr, jsLength]
      case str n =>
        cases hs : lookupField afields "street" <;>
          simp [typeofJs, jsMember, isNonEmptyStr, jsLength]
        case str s =>
          by_cases hn0 : n.length = 0 <;> by_cases hs0 : s.length = 0 <;>
            simp [hn0, hs0]

/-! ### Decimal rendering of the synthetic id counter

`address_extractor.js` pushes the numeric counter `++idOrdinal` into the
`newid` array; `Array.prototype.join` renders it as its decimal numeral.
`natLit` is that decimal rendering (fuel-structured so it reduces in the
kernel). -/

/-- The decimal digit character for `d < 10` (code point `48 + d`). -/
def digitCh (d : Nat) : Char := Char.ofNat (48 + d)

/-- Digit list of `n`, most significant first; `fuel` bounds recursion
depth and any `fuel > n` is sufficient. -/
def natLitAux : Nat → Nat → List Char
  | 0, _ => []
  | fuel + 1, n =>
    if n < 10 then [digitCh n]
    else natLitAux fuel (n / 10) ++ [digitCh (n % 10)]

/-- Decimal numeral of a natural number, as `Array.prototype.join` would
render the id counter. -/
def natLit (n : Nat) : String := ⟨natLitAux (n + 1) n⟩

example : natLit 0 = "0" := by decide
example : natLit 7 = "7" := by decide
example : natLit 235 = "235" := by decide

theorem natLitAux_digits (fuel n : Nat) :
    ∀ c ∈ natLitAux fuel n, ∃ d, d < 10 ∧ c = digitCh d := by
  induction fuel generalizing n with
  | zero => intro c hc; simp [natLitAux] at hc
  | succ fuel ih =>
    intro c hc
    by_cases h : n < 10
    · simp [natLitAux, h] at hc
      exact ⟨n, h, hc⟩
    · simp [natLitAux, h] at hc
      rcases hc with hc | hc
      · exact ih (n / 10) c hc
      · exact ⟨n % 10, Nat.mod_lt _ (by omega), hc⟩

theorem digitCh_ne_dash : ∀ d, d < 10 → digitCh d ≠ '-' := by decide

theorem natLit_no_dash (n : Nat) : ∀ c ∈ (natLit n).data, c ≠ '-' := by
  intro c hc
  rcases natLitAux_digits (n + 1) n c hc with ⟨d, hd, rfl⟩
  exact digitCh_ne_dash d hd

/-- Value of a digit string, used only to prove `natLit` injective. -/
def valLit (cs : List Char) : Nat := cs.foldl (fun a c => 10 * a + (c.toNat - 48)) 0

theorem valLit_append_digit (cs : List Char) (c : Char) :
    valLit (cs ++ [c]) = 10 * valLit cs + (c.toNat - 48) := by
  simp [valLit, List.foldl_append]

theorem digitCh_toNat : ∀ d, d < 10 → (digitCh d).toNat = 48 + d := by decide

theorem valLit_natLitAux (fuel n : Nat) (h : n < fuel) :
    valLit (natLitAux fuel n) = n := by
  induction fuel generalizing n with
  | zero => omega
  | succ fuel ih =>
    by_cases h10 : n < 10
    · simp [natLitAux, h10, valLit, digitCh_toNat n h10]
    · have hdiv : n / 10 < n := Nat.div_lt_self (by omega) (by omega)
      have hfuel : n / 10 < fuel := by omega
      simp [natLitAux, h10, valLit_append_digit, ih _ hfuel,
        digitCh_toNat (n % 10) (Nat.mod_lt _ (by omega))]
      omega

theorem natLit_inj {m n : Nat} (h : natLit m = natLit n) : m = n := by
  have hd : (natLit m).data = (natLit n).data := by rw [h]
  have hm : valLit ((natLit m).data) = m := valLit_natLitAux (m + 1) m (by omega)
  have hn : valLit ((natLit n).data) = n := valLit_natLitAux (n + 1) n (by omega)
  rw [hd, hn] at hm
  omega

/-! ### Splitting a character list at its first dash -/

/-- A dash-delimited join is uniquely parsable at its first dash when the
first segment is dash-free on both sides. -/
theorem splitAtDash :
    ∀ (l₁ l₂ r₁ r₂ : List Char), (∀ c ∈ l₁, c ≠ '-') → (∀ c ∈ l₂, c ≠ '-') →
      l₁ ++ '-' :: r₁ = l₂ ++ '-' :: r₂ → l₁ = l₂ ∧ r₁ = r₂ := by
  intro l₁
  induction l₁ with
  | nil =>
    intro l₂ r₁ r₂ _ h₂ heq
    cases l₂ with
    | nil => simpa using heq
    | cons b l₂ =>
      simp at heq
      exact absurd heq.1.symm (h₂ b (by simp))
  | cons a l₁ ih =>
    intro l₂ r₁ r₂ h₁ h₂ heq
    cases l₂ with
    | nil =>
      simp at heq
      exact absurd heq.1 (h₁ a (by simp))
    | cons b l₂ =>
      simp at heq
      obtain ⟨rfl, heq⟩ := heq
      obtain ⟨h, h'⟩ := ih l₂ r₁ r₂ (fun c hc => h₁ c (by simp [hc]))
        (fun c hc => h₂ c (by simp [hc])) heq
      exact ⟨by simp [h], h'⟩

/-- String concatenation acts as list concatenation on the character data. -/
theorem strData_append (a b : String) : (a ++ b).data = a.data ++ b.data := rfl

/-! ### The canonical document -/

/-- A centroid; the numeric coordinate values are embedded as integers
(the claims under verification only copy and compare them). -/
structure Centroid where
  lat : Int
  lon : Int
deriving DecidableEq

/-- The canonical document (pelias-model `Document`), modelled from the
spec §3: identity (`source`, `docType`, `id`, `sourceId`), optional
default name, optional centroid, raw `address` object, alpha3 and admin
fields, and the `_meta` bag. -/
structure Document where
  source : String
  docType : String
  id : String
  sourceId : Option String
  name : List (String × String)
  centroid : Option Centroid
  address : JsVal
  alpha3 : Option String
  admin : List (String × String)
  meta : List (String × JsVal)

/-- Lookup in a string-valued association list. -/
def lookupStr : List (String × String) → String → Option String
  | [], _ => none
  | (k, v) :: rest, key => if k = key then some v else lookupStr rest key

/-- `doc.getName('default')` truthiness: `!!doc.getName('default')` is
`true` exactly on a non-empty default name. -/
def isNamedPoiB (doc : Document) : Bool :=
  match lookupStr doc.name "default" with
  | some s => !(s.length == 0)
  | none => false

/-- `doc.getSourceId()` truthiness in `(doc.getSourceId() || ++idOrdinal)`:
an absent or empty source id is falsy. -/
def sourceIdTruthy (doc : Document) : Bool :=
  match doc.sourceId with
  | some s => !(s.length == 0)
  | none => false

/-- The source id string (only read under `sourceIdTruthy`). -/
def sidStr (doc : Document) : String := doc.sourceId.getD ""

/-- `doc.address.number` as read inside the valid-address branch (a
non-empty string whenever `hasValidAddress` held). -/
def addrNumberStr (doc : Document) : String :=
  match getProp doc.address "number" with
  | .str s => s
  | _ => ""

/-- `doc.address.street` as read inside the valid-address branch. -/
def addrStreetStr (doc : Document) : String :=
  match getProp doc.address "street" with
  | .str s => s
  | _ => ""

/-- `hasValidAddress(doc)` applied to a canonical document: the predicate
only reads the `address` property of its argument. It never throws
(`hasValidAddress_eq_spec`), so the boolean can be extracted. -/
def hasValidAddressDoc (doc : Document) : Bool :=
  match hasValidAddress (JsVal.obj [("address", doc.address)]) with
  | .ok b => b
  | .error _ => false

/-- `String.prototype.split` with a one-character separator, on the
character data: `'a;;b'` gives `['a','','b']`, the empty string gives
`['']`. -/
def splitChar (sep : Char) : List Char → List (List Char)
  | [] => [[]]
  | c :: rest =>
    match splitChar sep rest with
    | [] => if c = sep then [[], []] else [[c]]
    | seg :: segs => if c = sep then [] :: seg :: segs else (c :: seg) :: segs

/-- `doc.address.number.split(';')`. -/
def jsSplit (s : String) (sep : Char) : List String :=
  (splitChar sep s.data).map fun cs => ⟨cs⟩

/-- `String.prototype.trim`: surrounding whitespace stripped from both
ends. -/
def jsTrim (s : String) : String :=
  ⟨(((s.data.dropWhile Char.isWhitespace).reverse.dropWhile
      Char.isWhitespace).reverse)⟩

example : jsSplit "12;14" ';' = ["12", "14"] := by decide
example : jsSplit "" ';' = [""] := by decide
example : jsSplit "a;;b" ';' = ["a", "", "b"] := by decide
example : jsSplit "12;" ';' = ["12", ""] := by decide
example : jsTrim "  12 a " = "12 a" := by decide
example : jsTrim "14" = "14" := by decide

/-- `Array.prototype.join('-')` on the `newid` array. -/
def joinDash : List String → String
  | [] => ""
  | [s] => s
  | s :: rest => s ++ "-" ++ joinDash rest

/-- The per-field fault-tolerant copy of the four address properties
(`setProperties`, `addrProps` loop): each present field is copied, an
absent one is skipped without affecting the others. -/
def copiedAddress (doc : Document) : JsVal :=
  .obj (["name", "number", "street", "zip"].filterMap fun k =>
    match getProp doc.address k with
    | .undefined => none
    | v => some (k, v))

/-- The admin levels copied by `setProperties` (`adminProps` loop),
each copy independently fault-tolerant. -/
def copiedAdmin (doc : Document) : List (String × String) :=
  ["admin0", "admin1", "admin1_abbr", "admin2", "local_admin", "locality",
    "neighborhood"].filterMap fun k => (lookupStr doc.admin k).map ((k, ·))

/-- Overwrite (or add) one key of a JS object's field list — the effect of
the `{ id: ..., type: ... }` override in the deep `extend` of `_meta`. -/
def setField (fields : List (String × JsVal)) (key : String) (v : JsVal) :
    List (String × JsVal) :=
  if fields.any (fun p => p.1 = key) then
    fields.map fun p => if p.1 = key then (key, v) else p
  else fields ++ [(key, v)]

/-- `record._meta = extend(true, {}, doc._meta, {id: record.getId(),
type: record.getType()})`: a copy of the source meta with `id`/`type`
overridden to the derived document's own identity. -/
def withMeta (doc : Document) (record : Document) : Document :=
  { record with
    meta := setField (setField doc.meta "id" (.str record.id)) "type"
      (.str record.docType) }

/-- `(doc.getSourceId() || ++idOrdinal)`: the id base for one component,
together with the counter after it; a truthy source id leaves the counter
untouched, otherwise the pre-incremented counter is used. -/
def nextBase (doc : Document) (ord : Nat) : String × Nat :=
  if sourceIdTruthy doc then (sidStr doc, ord) else (natLit (ord + 1), ord + 1)

/-- One address-derived record, before meta assignment: the `newid` array
(appending the trimmed house number for every component beyond the first),
`new Document('osm', 'address', newid.join('-'))`, `setName`,
`setCentroid`, `setSourceId` and the `setProperties` copies. -/
def buildRecord (doc : Document) (ty streetno : String) (i : Nat)
    (base : String) : Document :=
  let newid := ["osm", doc.docType, ty, base] ++ (if 0 < i then [streetno] else [])
  { source := "osm"
    docType := "address"
    id := joinDash newid
    sourceId := doc.sourceId
    name := [("default", streetno ++ " " ++ addrStreetStr doc)]
    centroid := doc.centroid
    address := copiedAddress doc
    alpha3 := doc.alpha3
    admin := copiedAdmin doc
    meta := [] }

/-- The `streetnumbers.forEach` loop. `throws i` abstracts the external
model collaborator raising during component `i`'s construction chain (the
code's outer `try`/`catch`); the `record` argument is the loop-shared
`var record` of the source, which a failing iteration leaves at its
previous value before the `if (record !== undefined)` push. Returns the
pushed records in push order and the final id counter. -/
def processComponents (throws : Nat → Bool) (doc : Document) (ty : String) :
    List String → Nat → Nat → Option Document → List Document × Nat
  | [], _, ord, _ => ([], ord)
  | streetno :: rest, i, ord, record =>
    let bo := nextBase doc ord
    let record1 := if throws i then record
      else some (buildRecord doc ty streetno i bo.1)
    match record1 with
    | none => processComponents throws doc ty rest (i + 1) bo.2 none
    | some r =>
      let r1 := withMeta doc r
      let next := processComponents throws doc ty rest (i + 1) bo.2 (some r1)
      (r1 :: next.1, next.2)

/-- The valid-address branch of the transform: split the house number on
`';'`, trim each component, run the `forEach`. Empty output and an
unchanged counter otherwise. -/
def derivedPart (throws : Nat → Bool) (doc : Document) (ord : Nat) :
    List Document × Nat :=
  if hasValidAddressDoc doc then
    let ty := if isNamedPoiB doc then "poi-address" else "address"
    let streetnumbers := (jsSplit (addrNumberStr doc) ';').map jsTrim
    processComponents throws doc ty streetnumbers 0 ord none
  else ([], ord)

/-- One `through.obj` transform step of the address extractor: the address
pushes happen inside the `forEach`, then the original document is pushed
when it is a named POI (the code comments that this MUST come after the
address pushes). -/
def extractStep (throws : Nat → Bool) (doc : Document) (ord : Nat) :
    List Document × Nat :=
  let addr := derivedPart throws doc ord
  (addr.1 ++ (if isNamedPoiB doc then [doc] else []), addr.2)

/-- The oracle under which the external model collaborator never raises —
the decision-table semantics of the extractor. -/
def noThrow : Nat → Bool := fun _ => false

/-- The address extractor on one document, counter threaded explicitly. -/
def addressExtractor (doc : Document) (ord : Nat) : List Document × Nat :=
  extractStep noThrow doc ord

/-! ### DocumentConstructor (spec-modelled) -/

/-- A raw input record (spec §3): an attribute bag in which no field is
guaranteed present. -/
structure RawRecord where
  id : Option Int := none
  rtype : Option String := none
  lat : Option Int := none
  lon : Option Int := none
  centroid : Option Centroid := none
  nodes : Option (List String) := none
  tags : Option (List String) := none

/-- Decimal rendering of a JS number used in identifiers. -/
def intStr (i : Int) : String :=
  if i < 0 then "-" ++ natLit i.natAbs else natLit i.natAbs

/-- Modelled from the spec: centroid resolution of `DocumentConstructor`
(spec §4.1) — `document_constructor.js` is not among the sources, only its
test suite is. If both `lat` and `lon` are present (including zero) the
centroid is set from them, overriding any `centroid` field; else a present
`centroid` object is used; else the centroid is unset. -/
def resolveCentroid (r : RawRecord) : Option Centroid :=
  match r.lat, r.lon with
  | some la, some lo => some ⟨la, lo⟩
  | _, _ => r.centroid

/-- Modelled from the spec: the auxiliary metadata of the constructed
document (spec §4.1) — `nodes`/`tags` attached verbatim when present,
absent otherwise. -/
def rawMeta (r : RawRecord) : List (String × JsVal) :=
  (match r.nodes with
   | some ns => [("nodes", JsVal.arr (ns.map JsVal.str))]
   | none => []) ++
  (match r.tags with
   | some ts => [("tags", JsVal.arr (ts.map JsVal.str))]
   | none => [])

/-- Modelled from the spec: the fallible model-layer construction used by
`DocumentConstructor` (spec §4.1, §6) — `document_constructor.js` is not
among the sources. The canonical identity needs the record's `id` (the
model layer rejects malformed input such as an empty record); the identity
combines the record's type (falling back to the `venue` default) with the
id, as the test suite's `'X:1'` expectation shows; the document category
defaults to `venue`. -/
def buildDocument (r : RawRecord) : Except String Document :=
  match r.id with
  | none => .error "invalid document identity"
  | some i =>
    .ok { source := "openstreetmap"
          docType := "venue"
          id := (r.rtype.getD "venue") ++ ":" ++ intStr i
          sourceId := some (intStr i)
          name := []
          centroid := resolveCentroid r
          address := .undefined
          alpha3 := none
          admin := []
          meta := rawMeta r }

/-- Modelled from the spec: the per-record output of `DocumentConstructor`
(spec §4.1 error policy) — a model-layer failure is suppressed and the
candidate document dropped; nothing is emitted for that input. -/
def constructorOutput (r : RawRecord) : List Document :=
  match buildDocument r with
  | .ok d => [d]
  | .error _ => []

/-- Modelled from the spec: the stream behaviour of `DocumentConstructor`
over a whole input sequence — each record contributes its own output and
the stage proceeds to the next input. -/
def constructorRun : List RawRecord → List Document
  | [] => []
  | r :: rest => constructorOutput r ++ constructorRun rest

/-! ### Characterizing the forEach loop when no construction throws -/

/-- The id base used by the component at offset `j` of a loop started at
counter `ord`. -/
def baseAt (doc : Document) (ord j : Nat) : String :=
  if sourceIdTruthy doc then sidStr doc else natLit (ord + j + 1)

/-- The record pushed for the component `s` at offset `j` of a loop over
components indexed from `i` started at counter `ord`. -/
def emittedAt (doc : Document) (ty : String) (i ord j : Nat) (s : String) :
    Document :=
  withMeta doc (buildRecord doc ty s (i + j) (baseAt doc ord j))

theorem emittedAt_shift (doc : Document) (ty : String) (i ord j : Nat)
    (s : String) :
    emittedAt doc ty (i + 1) (nextBase doc ord).2 j s
      = emittedAt doc ty i ord (j + 1) s := by
  have h1 : i + 1 + j = i + (j + 1) := by omega
  unfold emittedAt baseAt nextBase
  by_cases h : sourceIdTruthy doc <;> simp [h, h1]
  have h2 : ord + 1 + j + 1 = ord + (j + 1) + 1 := by omega
  rw [h2]

theorem pc_length (doc : Document) (ty : String) :
    ∀ (comps : List String) (i ord : Nat) (record : Option Document),
      ((processComponents noThrow doc ty comps i ord record).1).length
        = comps.length := by
  intro comps
  induction comps with
  | nil => intro i ord record; simp [processComponents]
  | cons s rest ih =>
    intro i ord record
    simp only [processComponents, noThrow, Bool.false_eq_true, if_false,
      List.length_cons]
    rw [ih]

theorem pc_get (doc : Document) (ty : String) :
    ∀ (comps : List String) (i ord : Nat) (record : Option Document) (j : Nat),
      ((processComponents noThrow doc ty comps i ord record).1)[j]?
        = (comps[j]?).map (fun s => emittedAt doc ty i ord j s) := by
  intro comps
  induction comps with
  | nil => intro i ord record j; simp [processComponents]
  | cons s rest ih =>
    intro i ord record j
    simp only [processComponents, noThrow, Bool.false_eq_true, if_false]
    cases j with
    | zero =>
      simp [emittedAt, baseAt, nextBase]
      by_cases h : sourceIdTruthy doc <;> simp [h]
    | succ j =>
      simp only [List.getElem?_cons_succ, ih]
      cases hr : rest[j]? <;> simp [emittedAt_shift]

theorem pc_ord (throws : Nat → Bool) (doc : Document) (ty : String) :
    ∀ (comps : List String) (i ord : Nat) (record : Option Document),
      (processComponents throws doc ty comps i ord record).2
        = if sourceIdTruthy doc then ord else ord + comps.length := by
  intro comps
  induction comps with
  | nil => intro i ord record; simp [processComponents]
  | cons s rest ih =>
    intro i ord record
    simp only [processComponents]
    split
    · rw [ih]
      by_cases ht : sourceIdTruthy doc <;> simp [nextBase, ht] <;> omega
    · simp only [List.length_cons]
      rw [ih]
      by_cases ht : sourceIdTruthy doc <;> simp [nextBase, ht] <;> omega

/-- Number of house-number components of a document's address. -/
def numComponents (doc : Document) : Nat :=
  (jsSplit (addrNumberStr doc) ';').length

/-- The trimmed house-number components. -/
def trimmedComps (doc : Document) : List String :=
  (jsSplit (addrNumberStr doc) ';').map jsTrim

/-- The derived-type marker chosen for the identity of address-derived
documents. -/
def tyMarker (doc : Document) : String :=
  if isNamedPoiB doc then "poi-address" else "address"

theorem derivedPart_length (doc : Document) (ord : Nat)
    (h : hasValidAddressDoc doc = true) :
    ((derivedPart noThrow doc ord).1).length = numComponents doc := by
  simp [derivedPart, h, pc_length, numComponents, trimmedComps]

theorem derivedPart_get (doc : Document) (ord j : Nat)
    (h : hasValidAddressDoc doc = true) :
    ((derivedPart noThrow doc ord).1)[j]?
      = ((trimmedComps doc)[j]?).map
          (fun s => emittedAt doc (tyMarker doc) 0 ord j s) := by
  simp [derivedPart, h, pc_get, trimmedComps, tyMarker]

/-- C1. Decision-table cardinality of the address extractor: per input
document it emits `N` address documents when the address is valid (`N` the
number of house-number components) plus the original document when it is a
named POI — so 0, 1, `N` or `N + 1` documents for the four rows of the
table. -/
theorem extractor_decision_table_cardinality (doc : Document) (ord : Nat) :
    ((addressExtractor doc ord).1).length
      = (if hasValidAddressDoc doc then numComponents doc else 0)
        + (if isNamedPoiB doc then 1 else 0) := by
  by_cases hv : hasValidAddressDoc doc <;>
    by_cases hn : isNamedPoiB doc <;>
      simp [addressExtractor, extractStep, hv, hn, derivedPart_length,
        derivedPart, pc_length, numComponents]

/-- C7. When the input document is both a named POI and has a valid
address, the output sequence is exactly the address-derived documents
followed by the original: every derived document precedes the original. -/
theorem extractor_derived_before_original (doc : Document) (ord : Nat)
    (hname : isNamedPoiB doc = true)
    (hvalid : hasValidAddressDoc doc = true) :
    (addressExtractor doc ord).1 = (derivedPart noThrow doc ord).1 ++ [doc]
    ∧ ((derivedPart noThrow doc ord).1).length = numComponents doc := by
  exact ⟨by simp [addressExtractor, extractStep, hname],
    derivedPart_length doc ord hvalid⟩

/-- A named POI with the multi-unit address `12;14 Main Street`, used as a
concrete evaluation point. -/
def poiDoc : Document :=
  { source := "osm"
    docType := "venue"
    id := "venue:5"
    sourceId := some "5"
    name := [("default", "Cafe Lean")]
    centroid := some ⟨1, 2⟩
    address := .obj [("number", .str "12;14"), ("street", .str "Main Street")]
    alpha3 := none
    admin := []
    meta := [] }

/-- C7 witness: on `poiDoc` both kinds of output occur and the original is
emitted last. -/
theorem extractor_derived_before_original_witness :
    (addressExtractor poiDoc 0).1 = (derivedPart noThrow poiDoc 0).1 ++ [poiDoc]
    ∧ ((derivedPart noThrow poiDoc 0).1).length = numComponents poiDoc :=
  extractor_derived_before_original poiDoc 0 (by decide) (by decide)

/-- Strings with equal character data are equal. -/
theorem strDataEq {a b : String} (h : a.data = b.data) : a = b := by
  cases a; cases b; exact congrArg String.mk h

theorem buildRecord_id (doc : Document) (ty s : String) (i : Nat)
    (base : String) :
    (buildRecord doc ty s i base).id
      = "osm-" ++ doc.docType ++ "-" ++ ty ++ "-"
        ++ (if 0 < i then base ++ "-" ++ s else base) := by
  have hosm : ("osm-" : String) = "osm" ++ "-" := rfl
  by_cases h : 0 < i <;>
    simp [buildRecord, h, joinDash, hosm, String.append_assoc]

/-- C6. For a document with a valid address the house number is split on
`';'` and each component trimmed, one derived document per component, and
the derived document at position `j` carries
`name.default = trimmedComponent + ' ' + street`. -/
theorem derived_name_default (doc : Document) (ord j : Nat) (s : String)
    (hv : hasValidAddressDoc doc = true)
    (hj : (jsSplit (addrNumberStr doc) ';')[j]? = some s) :
    ((derivedPart noThrow doc ord).1).length = numComponents doc
    ∧ ∃ r, ((derivedPart noThrow doc ord).1)[j]? = some r
        ∧ lookupStr r.name "default"
            = some (jsTrim s ++ " " ++ addrStreetStr doc) := by
  refine ⟨derivedPart_length doc ord hv, ?_⟩
  rw [derivedPart_get doc ord j hv]
  simp only [trimmedComps, List.getElem?_map, hj, Option.map_some']
  exact ⟨_, rfl, by simp [emittedAt, withMeta, buildRecord, lookupStr]⟩

/-- C6 witness: the second component of `12;14 Main Street` yields the
derived name `14 Main Street`. -/
theorem derived_name_default_witness :
    ((derivedPart noThrow poiDoc 0).1).length = numComponents poiDoc
    ∧ ∃ r, ((derivedPart noThrow poiDoc 0).1)[1]? = some r
        ∧ lookupStr r.name "default"
            = some (jsTrim "14" ++ " " ++ addrStreetStr poiDoc) :=
  derived_name_default poiDoc 0 1 "14" (by decide) (by decide)

/-- C3 counterexample: `poiDoc` is a named POI with a valid address, yet
both emitted address-derived documents have document type `"address"`,
not `"poi-address"` — the constructor call hard-codes
`new Document('osm', 'address', ...)` and the `poi-address` marker enters
only the identifier. -/
theorem derived_type_cex :
    isNamedPoiB poiDoc = true ∧ hasValidAddressDoc poiDoc = true
    ∧ ((derivedPart noThrow poiDoc 0).1.map (fun r => r.docType))
        = ["address", "address"] := by
  refine ⟨by decide, by decide, ?_⟩
  decide

/-- C3 amended: the `poi-address` / `address` distinction chosen by the
named-POI test enters the derived *identifier* as its type marker, while
every address-derived document's own document type is the constant
`"address"`. -/
theorem derived_type_marker (doc : Document) (ord j : Nat)
    (hv : hasValidAddressDoc doc = true) (hj : j < numComponents doc) :
    ∃ r, ((derivedPart noThrow doc ord).1)[j]? = some r
      ∧ r.docType = "address"
      ∧ ∃ rest, r.id
          = "osm-" ++ doc.docType ++ "-" ++ tyMarker doc ++ "-" ++ rest := by
  have hlen : j < (trimmedComps doc).length := by
    simpa [trimmedComps, numComponents] using hj
  rw [derivedPart_get doc ord j hv, List.getElem?_eq_getElem hlen]
  refine ⟨_, rfl, by simp [emittedAt, withMeta, buildRecord], ?_⟩
  refine ⟨(if 0 < 0 + j then baseAt doc ord j ++ "-" ++ (trimmedComps doc)[j]
    else baseAt doc ord j), ?_⟩
  simp only [emittedAt, withMeta]
  exact buildRecord_id doc (tyMarker doc) _ _ _

/-- C3-amended witness: the first derived document of `poiDoc` has type
`"address"` and an id bearing the `poi-address` marker. -/
theorem derived_type_marker_witness :
    ∃ r, ((derivedPart noThrow poiDoc 0).1)[0]? = some r
      ∧ r.docType = "address"
      ∧ ∃ rest, r.id
          = "osm-" ++ poiDoc.docType ++ "-" ++ tyMarker poiDoc ++ "-" ++ rest :=
  derived_type_marker poiDoc 0 0 (by decide) (by decide)

/-! ### Identity derivation -/

/-- The emitted id strings of the address-derived documents. -/
def derivedIds (doc : Document) (ord : Nat) : List String :=
  (derivedPart noThrow doc ord).1.map fun r => r.id

/-- A string without the `'-'` join separator. -/
def dashFree (s : String) : Bool := s.data.all fun c => c != '-'

theorem dashFree_spec {s : String} (h : dashFree s = true) :
    ∀ c ∈ s.data, c ≠ '-' := by
  intro c hc
  have := List.all_eq_true.mp h c hc
  simpa using this

theorem osmDash_data : ("osm-" : String).data = ['o', 's', 'm', '-'] := rfl

theorem dash_data : ("-" : String).data = ['-'] := rfl

theorem emitted_id_data (doc : Document) (ty : String) (ord j : Nat)
    (s : String) :
    (emittedAt doc ty 0 ord j s).id.data
      = 'o' :: 's' :: 'm' :: '-' ::
          (doc.docType.data ++ '-' :: (ty.data ++ '-' ::
            ((baseAt doc ord j).data
              ++ (if 0 < j then '-' :: s.data else [])))) := by
  simp only [emittedAt, withMeta]
  rw [buildRecord_id]
  by_cases h : 0 < j <;>
    simp [h, strData_append, osmDash_data, dash_data, List.append_assoc]

theorem derivedIds_get (doc : Document) (ord j : Nat)
    (h : hasValidAddressDoc doc = true) :
    (derivedIds doc ord)[j]?
      = ((trimmedComps doc)[j]?).map
          (fun s => (emittedAt doc (tyMarker doc) 0 ord j s).id) := by
  simp only [derivedIds, List.getElem?_map, derivedPart_get doc ord j h]
  cases (trimmedComps doc)[j]? <;> simp

/-- Equal emitted ids from the same source document force equal
base-and-suffix tails. -/
theorem emitted_id_inj_same (doc : Document) (ty : String) (ord a b : Nat)
    (sa sb : String)
    (h : (emittedAt doc ty 0 ord a sa).id = (emittedAt doc ty 0 ord b sb).id) :
    (baseAt doc ord a).data ++ (if 0 < a then '-' :: sa.data else [])
      = (baseAt doc ord b).data ++ (if 0 < b then '-' :: sb.data else []) := by
  have hd := congrArg String.data h
  rw [emitted_id_data, emitted_id_data] at hd
  simp only [List.cons.injEq, true_and] at hd
  have h1 := List.append_cancel_left hd
  simp only [List.cons.injEq, true_and] at h1
  have h2 := List.append_cancel_left h1
  simpa using h2

/-- Equal base-and-suffix tails with decimal bases force equal counter
values. -/
theorem base_step (nA nB : Nat) (tA tB : List Char)
    (hA : tA = [] ∨ ∃ u, tA = '-' :: u) (hB : tB = [] ∨ ∃ u, tB = '-' :: u)
    (h : (natLit nA).data ++ tA = (natLit nB).data ++ tB) : nA = nB := by
  rcases hA with rfl | ⟨u, rfl⟩ <;> rcases hB with rfl | ⟨v, rfl⟩
  · simp only [List.append_nil] at h
    exact natLit_inj (strDataEq h)
  · exfalso
    simp only [List.append_nil] at h
    have hmem : '-' ∈ (natLit nA).data := by
      rw [h]
      exact List.mem_append_right _ (by simp)
    exact natLit_no_dash nA '-' hmem rfl
  · exfalso
    simp only [List.append_nil] at h
    have hmem : '-' ∈ (natLit nB).data := by
      rw [← h]
      exact List.mem_append_right _ (by simp)
    exact natLit_no_dash nB '-' hmem rfl
  · obtain ⟨heq, -⟩ := splitAtDash _ _ _ _
      (fun c hc => natLit_no_dash nA c hc) (fun c hc => natLit_no_dash nB c hc) h
    exact natLit_inj (strDataEq heq)

/-- Peeling the type-marker segment: both markers are one of the two
constants, and a mismatch is impossible at the first character. -/
theorem ty_step (tyA tyB : String) (xA xB : List Char)
    (hA : tyA = "address" ∨ tyA = "poi-address")
    (hB : tyB = "address" ∨ tyB = "poi-address")
    (h : tyA.data ++ '-' :: xA = tyB.data ++ '-' :: xB) : xA = xB := by
  rcases hA with rfl | rfl <;> rcases hB with rfl | rfl <;>
    simpa using h

/-- Equal emitted ids across two counter-based (id-lacking) source
documents with dash-free categories force equal counter values. -/
theorem emitted_id_inj_cross (A B : Document) (tyA tyB : String)
    (ordA ordB a b : Nat) (sa sb : String)
    (hAf : dashFree A.docType = true) (hBf : dashFree B.docType = true)
    (htyA : tyA = "address" ∨ tyA = "poi-address")
    (htyB : tyB = "address" ∨ tyB = "poi-address")
    (hA : sourceIdTruthy A = false) (hB : sourceIdTruthy B = false)
    (h : (emittedAt A tyA 0 ordA a sa).id = (emittedAt B tyB 0 ordB b sb).id) :
    ordA + a + 1 = ordB + b + 1 := by
  have hd := congrArg String.data h
  rw [emitted_id_data, emitted_id_data] at hd
  simp only [List.cons.injEq, true_and] at hd
  obtain ⟨-, h2⟩ := splitAtDash _ _ _ _ (dashFree_spec hAf) (dashFree_spec hBf) hd
  have h3 := ty_step tyA tyB _ _ htyA htyB h2
  rw [baseAt, baseAt, hA, hB] at h3
  simp only [Bool.false_eq_true, if_false] at h3
  refine base_step _ _ _ _ ?_ ?_ h3
  · by_cases ha : 0 < a <;> simp [ha]
  · by_cases hb : 0 < b <;> simp [hb]

theorem tyMarker_cases (doc : Document) :
    tyMarker doc = "address" ∨ tyMarker doc = "poi-address" := by
  by_cases h : isNamedPoiB doc <;> simp [tyMarker, h]

theorem ids_distinct_same_doc (doc : Document) (ord a b : Nat)
    (sa sb : String) (hab : a < b)
    (hcomp : sourceIdTruthy doc = true → 0 < a → sa ≠ sb) :
    (emittedAt doc (tyMarker doc) 0 ord a sa).id
      ≠ (emittedAt doc (tyMarker doc) 0 ord b sb).id := by
  intro h
  have hx := emitted_id_inj_same doc (tyMarker doc) ord a b sa sb h
  have hb : 0 < b := by omega
  by_cases ht : sourceIdTruthy doc
  · simp only [baseAt, ht, if_true] at hx
    have h1 := List.append_cancel_left hx
    by_cases ha : 0 < a
    · simp only [ha, hb, if_true] at h1
      simp only [List.cons.injEq, true_and] at h1
      exact hcomp ht ha (strDataEq h1)
    · simp [ha, hb] at h1
  · simp only [baseAt, ht, Bool.false_eq_true, if_false] at hx
    have hnm := base_step (ord + a + 1) (ord + b + 1) _ _ ?_ ?_ hx
    · omega
    · by_cases ha : 0 < a <;> simp [ha]
    · simp [hb]

theorem derivedIds_length (doc : Document) (ord : Nat)
    (h : hasValidAddressDoc doc = true) :
    (derivedIds doc ord).length = numComponents doc := by
  simp [derivedIds, derivedPart_length doc ord h]

theorem extractStep_ord (doc : Document) (ord : Nat)
    (hv : hasValidAddressDoc doc = true)
    (hf : sourceIdTruthy doc = false) :
    (extractStep noThrow doc ord).2 = ord + numComponents doc := by
  simp [extractStep, derivedPart, hv, pc_ord, hf, numComponents, trimmedComps]

/-- C5 amended. For a source document with a valid address: (1) every
address-derived identity differs from the source identity provided the
source identity does not begin with `osm-`; (2) sibling derived identities
are pairwise distinct provided — when the source has a truthy upstream
id — the trimmed house-number components after the first are pairwise
distinct (a repeated component at positions ≥ 2 collides, see the
counterexample), while an id-lacking source needs no proviso; (3) address
documents derived from two id-lacking sources in one run (the second
processed at a counter at least the first's final counter) have pairwise
distinct identities, provided the source categories are dash-free. -/
theorem derived_identity_distinctness (A B : Document) (ordA ordB : Nat)
    (hAv : hasValidAddressDoc A = true)
    (hBv : hasValidAddressDoc B = true)
    (hAid : A.id.data.take 4 ≠ ("osm-" : String).data)
    (hsib : sourceIdTruthy A = true → ((trimmedComps A).drop 1).Nodup)
    (hord : (extractStep noThrow A ordA).2 ≤ ordB)
    (hAf : dashFree A.docType = true) (hBf : dashFree B.docType = true) :
    (∀ r ∈ (derivedPart noThrow A ordA).1, r.id ≠ A.id)
    ∧ (derivedIds A ordA).Nodup
    ∧ (sourceIdTruthy A = false → sourceIdTruthy B = false →
        ∀ ia ∈ derivedIds A ordA, ∀ ib ∈ derivedIds B ordB, ia ≠ ib) := by
  refine ⟨?_, ?_, ?_⟩
  · intro r hr heq
    rcases List.getElem_of_mem hr with ⟨j, hj, he⟩
    have hq : ((derivedPart noThrow A ordA).1)[j]? = some r := by
      rw [List.getElem?_eq_getElem hj, he]
    rw [derivedPart_get A ordA j hAv] at hq
    cases hs : (trimmedComps A)[j]? with
    | none => rw [hs] at hq; simp at hq
    | some s =>
      rw [hs] at hq
      simp only [Option.map_some', Option.some.injEq] at hq
      apply hAid
      rw [← heq, ← hq, osmDash_data]
      have hdata := emitted_id_data A (tyMarker A) ordA j s
      rw [hdata]
      rfl
  · rw [List.nodup_iff_getElem?_ne_getElem?]
    intro i j hij hjlen
    rw [derivedIds_length A ordA hAv] at hjlen
    have hilen : i < (trimmedComps A).length := by
      simpa [trimmedComps, numComponents] using (by omega : i < numComponents A)
    have hjlen' : j < (trimmedComps A).length := by
      simpa [trimmedComps, numComponents] using hjlen
    rw [derivedIds_get A ordA i hAv, derivedIds_get A ordA j hAv,
      List.getElem?_eq_getElem hilen, List.getElem?_eq_getElem hjlen']
    simp only [Option.map_some', ne_eq, Option.some.injEq]
    apply ids_distinct_same_doc A ordA i j _ _ hij
    intro ht hi hss
    have hnd := hsib ht
    rw [List.nodup_iff_getElem?_ne_getElem?] at hnd
    have hd1 : i - 1 < j - 1 := by omega
    have hd2 : j - 1 < ((trimmedComps A).drop 1).length := by
      simp only [List.length_drop]
      omega
    apply hnd (i - 1) (j - 1) hd1 hd2
    rw [List.getElem?_drop, List.getElem?_drop]
    have hi1 : 1 + (i - 1) = i := by omega
    have hj1 : 1 + (j - 1) = j := by omega
    rw [hi1, hj1, List.getElem?_eq_getElem hilen,
      List.getElem?_eq_getElem hjlen', hss]
  · intro hA hB ia hia ib hib heq
    rcases List.getElem_of_mem hia with ⟨a, halen, ha⟩
    rcases List.getElem_of_mem hib with ⟨b, hblen, hb⟩
    have ha' : (derivedIds A ordA)[a]? = some ia := by
      rw [List.getElem?_eq_getElem halen, ha]
    have hb' : (derivedIds B ordB)[b]? = some ib := by
      rw [List.getElem?_eq_getElem hblen, hb]
    rw [derivedIds_get A ordA a hAv] at ha'
    rw [derivedIds_get B ordB b hBv] at hb'
    cases hsa : (trimmedComps A)[a]? with
    | none => rw [hsa] at ha'; simp at ha'
    | some sa =>
    cases hsb : (trimmedComps B)[b]? with
    | none => rw [hsb] at hb'; simp at hb'
    | some sb =>
      rw [hsa] at ha'
      rw [hsb] at hb'
      simp only [Option.map_some', Option.some.injEq] at ha' hb'
      have hcnt := emitted_id_inj_cross A B (tyMarker A) (tyMarker B)
        ordA ordB a b sa sb hAf hBf (tyMarker_cases A) (tyMarker_cases B)
        hA hB (by rw [ha', hb', heq])
      have hbound : a < numComponents A := by
        rw [derivedIds_length A ordA hAv] at halen
        exact halen
      have hstep : ordA + numComponents A ≤ ordB := by
        rw [← extractStep_ord A ordA hAv hA]
        exact hord
      omega

/-- A source document with a truthy upstream id and the repeated
house-number component list `1;2;2`. -/
def dupDoc : Document :=
  { source := "osm"
    docType := "venue"
    id := "venue:5"
    sourceId := some "5"
    name := []
    centroid := none
    address := .obj [("number", .str "1;2;2"), ("street", .str "Main St")]
    alpha3 := none
    admin := []
    meta := [] }

/-- C5 counterexample: with a valid address whose house number repeats a
component (`1;2;2`), two sibling derived documents receive the *same*
identity `osm-venue-address-5-2` — the per-component suffix is the trimmed
component itself and does not disambiguate repeats. -/
theorem derived_identity_cex :
    hasValidAddressDoc dupDoc = true
    ∧ derivedIds dupDoc 0
        = ["osm-venue-address-5", "osm-venue-address-5-2",
           "osm-venue-address-5-2"]
    ∧ ¬ (derivedIds dupDoc 0).Nodup := by
  exact ⟨by decide, by decide, by decide⟩

/-- Two id-lacking source documents used to witness the counter-based
case of the amended distinctness statement. -/
def wDocA : Document :=
  { source := "osm"
    docType := "venue"
    id := "venue:7"
    sourceId := none
    name := []
    centroid := none
    address := .obj [("number", .str "1;2"), ("street", .str "Main St")]
    alpha3 := none
    admin := []
    meta := [] }

/-- Second id-lacking source document, processed after `wDocA`. -/
def wDocB : Document :=
  { source := "osm"
    docType := "venue"
    id := "venue:8"
    sourceId := none
    name := []
    centroid := none
    address := .obj [("number", .str "3"), ("street", .str "High St")]
    alpha3 := none
    admin := []
    meta := [] }

/-- C5-amended witness: concrete id-lacking documents satisfy every
hypothesis, and their derived identities are distinct from the source ids,
among siblings, and across the two documents. -/
theorem derived_identity_distinctness_witness :
    (∀ r ∈ (derivedPart noThrow wDocA 0).1, r.id ≠ wDocA.id)
    ∧ (derivedIds wDocA 0).Nodup
    ∧ (sourceIdTruthy wDocA = false → sourceIdTruthy wDocB = false →
        ∀ ia ∈ derivedIds wDocA 0, ∀ ib ∈ derivedIds wDocB 2, ia ≠ ib) :=
  derived_identity_distinctness wDocA wDocB 0 2 (by decide) (by decide)
    (by decide) (by decide) (by decide) (by decide) (by decide)

/-- C8. `hasValidAddress` computes (without throwing) exactly the spec's
predicate: true iff `doc.address` exists and both `doc.address.number` and
`doc.address.street` are non-empty strings; every other shape gives
false. -/
theorem hasValidAddress_iff_spec (doc : JsVal) :
    hasValidAddress doc = .ok (specValidAddress doc) :=
  hasValidAddress_ok doc

/-- C10. `hasValidAddress` is total: a non-object argument, and an
argument whose `address` property is not an object, both produce
`.ok false` — never a thrown `TypeError`. -/
theorem hasValidAddress_total (v : JsVal) :
    (isObject v = false → hasValidAddress v = .ok false)
    ∧ (isObject (getProp v "address") = false → hasValidAddress v = .ok false) := by
  constructor
  · intro h
    simp [hasValidAddress, h]
  · intro h
    rw [hasValidAddress_ok]
    cases hv : getProp v "address"
    case arr es => rw [hv] at h; simp [isObject] at h
    case obj fs => rw [hv] at h; simp [isObject] at h
    all_goals
      simp only [specValidAddress, hv]
      simp [existsProp, isNonEmptyStr, getProp]

/-- C10 witness: a number input and an object whose `address` is a string
both give `.ok false`. -/
theorem hasValidAddress_total_witness :
    hasValidAddress (.num 3) = .ok false
    ∧ hasValidAddress (.obj [("address", .str "x")]) = .ok false :=
  ⟨(hasValidAddress_total (.num 3)).1 (by decide),
   (hasValidAddress_total (.obj [("address", .str "x")])).2 (by decide)⟩

/-- An unnamed document with a truthy upstream id and house number `1;2`,
the evaluation point for the stale-`record` behaviour. -/
def bugDoc : Document :=
  { source := "osm"
    docType := "venue"
    id := "venue:5"
    sourceId := some "5"
    name := []
    centroid := none
    address := .obj [("number", .str "1;2"), ("street", .str "Main St")]
    alpha3 := none
    admin := []
    meta := [] }

/-- C4 evaluation at the failing input: `bugDoc` has two house-number
components; when the model collaborator throws during component 1's
construction (`throws = (· == 1)`), the stream still pushes a document in
that component's iteration — a duplicate of component 0's record, because
the loop-shared `var record` retains its previous value past the `catch` —
instead of skipping the component as the spec requires (the no-throw run
is shown for comparison). -/
theorem component_throw_stale_push :
    numComponents bugDoc = 2
    ∧ ((derivedPart (fun i => i == 1) bugDoc 0).1.map (fun r => r.id))
        = ["osm-venue-address-5", "osm-venue-address-5"]
    ∧ ((derivedPart noThrow bugDoc 0).1.map (fun r => r.id))
        = ["osm-venue-address-5", "osm-venue-address-5-2"] := by
  exact ⟨by decide, by decide, by decide⟩

/-- C2 (spec-modelled). When the model layer rejects a raw record, the
constructor emits nothing for that input, raises no stream-fatal error
(it is a total function into an output list), and the run continues with
the next input. -/
theorem constructor_error_suppression (r : RawRecord) (rest : List RawRecord)
    (e : String) (h : buildDocument r = .error e) :
    constructorOutput r = []
    ∧ constructorRun (r :: rest) = constructorRun rest := by
  constructor
  · simp [constructorOutput, h]
  · simp [constructorRun, constructorOutput, h]

/-- C2 witness: the empty raw record (the test suite's `stream.write({})`)
is rejected, emits nothing, and the following record is still processed. -/
theorem constructor_error_suppression_witness :
    constructorOutput ({} : RawRecord) = []
    ∧ constructorRun [({} : RawRecord), ({ id := some 1 } : RawRecord)]
        = constructorRun [({ id := some 1 } : RawRecord)] :=
  constructor_error_suppression ({} : RawRecord)
    [({ id := some 1 } : RawRecord)] "invalid document identity" rfl

/-- C9 (spec-modelled). Centroid resolution prefers explicit `lat`/`lon`
over any precomputed `centroid` object — whatever `r.centroid` holds —
and zero coordinates produce the centroid `{lat: 0, lon: 0}`, not an
absent one. -/
theorem constructor_centroid_precedence (r : RawRecord) (la lo i : Int)
    (hla : r.lat = some la) (hlo : r.lon = some lo) (hid : r.id = some i) :
    ∃ d, buildDocument r = .ok d ∧ d.centroid = some ⟨la, lo⟩ := by
  simp only [buildDocument, hid]
  exact ⟨_, rfl, by simp [resolveCentroid, hla, hlo]⟩

/-- The test suite's zero-coordinate record, with a competing `centroid`
field added to exercise precedence as well. -/
def zeroRec : RawRecord :=
  { id := some 1, rtype := some "X", lat := some 0, lon := some 0,
    centroid := some ⟨2, 2⟩ }

/-- C9 witness: `lat=0, lon=0` beats the precomputed centroid `{2,2}` and
yields `{lat: 0, lon: 0}`. -/
theorem constructor_centroid_precedence_witness :
    ∃ d, buildDocument zeroRec = .ok d ∧ d.centroid = some ⟨0, 0⟩ :=
  constructor_centroid_precedence zeroRec 0 0 1 rfl rfl rfl
